import Mathlib

/-!
Shallow embedding of the IceCore server core: the request dispatch pipeline
(`fire_handlers`, src/delegates.rs), the external configuration entry points
(src/lib.rs), and the sandboxed application container with its migration
engine (src/lssa/app.rs).

Machine integers are modelled as `Int`/`Nat` with explicit reductions modulo
powers of two where the source truncates.  Rust panics are modelled as
explicit `none`/error components so that the state at the moment of a panic
stays observable.
-/

/-- Keyed lookup in an association list; mirrors the `BTreeMap::get` calls of
the migration engine (app.rs:277, app.rs:281) on the `modules` and
`namespaces` maps. -/
def alookup {β : Type} : String → List (String × β) → Option β
  | _, [] => none
  | k, (k', v) :: rest => if k = k' then some v else alookup k rest

/-- Modelled from the spec: one application entry of the versioned
configuration snapshot (spec 6, deployment/registry collaborator; the Rust
types live in `config`/`container`, outside src/), carrying the declared
permission set consulted by `check_permission` (app.rs:211).  A capability
(`config::AppPermission`) is modelled as an opaque string. -/
structure AppMeta where
  permissions : List String
deriving DecidableEq

/-- Modelled from the spec: the versioned configuration snapshot (spec 4.3
and 6) read under the reader/writer lock; `applications` is indexed by
application id as in `cs.config.applications[id]` (app.rs:209). -/
structure ContainerConfig where
  applications : List AppMeta
deriving DecidableEq

/-- Modelled from the spec: the deployment/registry collaborator
(`container::Container`, outside src/; spec 6).  `appNames` backs
`lookup_app_id_by_name`; the `.unwrap()` at app.rs:206 shows the lookup is
fallible, so it is an association from names to ids.  `config_state` is the
snapshot read under the RwLock at app.rs:208 (the lock itself is a
concurrency artefact outside this sequential model). -/
structure Container where
  appNames : List (String × Nat)
  config_state : ContainerConfig

/-- Modelled from the spec: `lookup_id_by_name(name) -> id` of the registry
collaborator (spec 6), fallible per the `.unwrap()` at its call site. -/
def Container.lookup_app_id_by_name (c : Container) (nm : String) : Option Nat :=
  alookup nm c.appNames

/-- One namespace of a resolver (`super::namespace`, outside src/): its
mutable internal state plus migration hooks.  Modelled from the spec: a
Namespace optionally exposes a migration hook producing and consuming an
opaque state blob (spec 4.2); internal state and blobs are opaque byte
sequences.  `captureHook` is `ns.start_migration()` (`none` means the
namespace produced no data), `restoreHook` is `ns.complete_migration(blob)`
acting on the current state. -/
structure Namespace where
  state : List Nat
  captureHook : List Nat → Option (List Nat)
  restoreHook : List Nat → List Nat → List Nat

/-- The application container `ApplicationImpl` (app.rs:24-44), restricted to
the state the verified operations read or write.  The five entry points
located at construction time (app.rs:105-119) are 64-bit functions; a trap
inside one, caught by the runtime's protected call, is the `Except.error`
case.  `initCall nm` is the protected-call result of the exported initializer
named `nm`, or `none` when the module exports no such function
(app.rs:164-167).  `resolvers` is the `BTreeMap<String, RcLssaResolver>`
together with each resolver's namespace map, flattened to association
lists. -/
structure App where
  name : String
  code_sha256 : List Nat
  memory : List Nat
  globals : List Int
  currently_inside : Nat
  resolvers : List (String × List (String × Namespace))
  invoke0_fn : Int → Except Unit Int
  invoke1_fn : Int → Int → Except Unit Int
  invoke2_fn : Int → Int → Int → Except Unit Int
  invoke3_fn : Int → Int → Int → Int → Except Unit Int
  invoke4_fn : Int → Int → Int → Int → Int → Except Unit Int
  initCall : String → Option Int
  container : Container

/-- `ApplicationImpl::check_permission` (app.rs:205-216).  `none` is a panic:
either the `.unwrap()` on the name lookup (app.rs:206) or an out-of-bounds
index into `applications` (app.rs:209).  `some (Except.ok ())` is authorized,
`some (Except.error ())` the typed denial of app.rs:211-215. -/
def check_permission (app : App) (perm : String) : Option (Except Unit Unit) :=
  match app.container.lookup_app_id_by_name app.name with
  | none => none
  | some id =>
    match app.container.config_state.applications[id]? with
    | none => none
    | some meta =>
      if perm ∈ meta.permissions then some (Except.ok ()) else some (Except.error ())

/-- Per-resolver migration blob map, `ModuleMigration` (app.rs:199-202). -/
structure ModuleMigration where
  namespaces : List (String × List Nat)
deriving DecidableEq

/-- The portable snapshot `AppMigration` (app.rs:191-197). -/
structure AppMigration where
  code_sha256 : List Nat
  memory : List Nat
  globals : List Int
  modules : List (String × ModuleMigration)
deriving DecidableEq

/-- Fatal conditions of `complete_migration`; each constructor is one
`panic!` site in app.rs (lines 254, 266, 278, 282). -/
inductive MigErr where
  | checksumMismatch
  | globalLenMismatch
  | moduleMissing (k : String)
  | namespaceMissing (nm : String)
deriving DecidableEq

/-- Result of the in-place migration restore: the application state at the
moment the call returned or panicked (`err = some e` means the panic `e`
fired; mutations performed before that point remain, mirroring the source's
in-place writes). -/
structure MigResult where
  state : App
  err : Option MigErr

/-- Namespace loop of `start_migration` (app.rs:228-235): capture each
namespace blob in order; a namespace returning no data is the
`panic!("Unable to migrate namespace ...")`, i.e. `none` overall. -/
def captureNamespaces : List (String × Namespace) → Option (List (String × List Nat))
  | [] => some []
  | (nm, ns) :: rest =>
    match ns.captureHook ns.state with
    | none => none
    | some b =>
      match captureNamespaces rest with
      | none => none
      | some bs => some ((nm, b) :: bs)

/-- Resolver loop of `start_migration` (app.rs:226-237). -/
def captureResolvers : List (String × List (String × Namespace)) → Option (List (String × ModuleMigration))
  | [] => some []
  | (k, nss) :: rest =>
    match captureNamespaces nss with
    | none => none
    | some bs =>
      match captureResolvers rest with
      | none => none
      | some ms => some ((k, ⟨bs⟩) :: ms)

/-- `ApplicationImpl::start_migration` (app.rs:223-250): namespace blobs,
then a byte-for-byte memory copy, the globals in declaration order, and the
code hash. -/
def start_migration (app : App) : Option AppMigration :=
  match captureResolvers app.resolvers with
  | none => none
  | some ms => some ⟨app.code_sha256, app.memory, app.globals, ms⟩

/-- Modelled from the spec: `rt.grow_memory` of the external JIT runtime;
sandbox linear memory is growable only (spec 4.4), and growing by `delta`
appends `delta` fresh zero bytes. -/
def growMemory (mem : List Nat) (delta : Nat) : List Nat :=
  mem ++ List.replicate delta 0

/-- Memory phase of `complete_migration` (app.rs:257-263): grow by the
difference when the snapshot is larger, then copy the snapshot bytes into
the low region `[0, snap.length)`. -/
def restoreMemory (mem snap : List Nat) : List Nat :=
  let mem' := if mem.length < snap.length then growMemory mem (snap.length - mem.length) else mem
  snap ++ mem'.drop snap.length

/-- Namespace loop of the restore phase (app.rs:280-285); stops at the first
missing blob (`panic!("Migration data not found for namespace ...")`),
leaving later namespaces (and the failing one) unrestored. -/
def restoreNsList (nss : List (String × Namespace)) (mm : ModuleMigration) :
    List (String × Namespace) × Option MigErr :=
  match nss with
  | [] => ([], none)
  | (nm, ns) :: rest =>
    match alookup nm mm.namespaces with
    | none => ((nm, ns) :: rest, some (MigErr.namespaceMissing nm))
    | some blob =>
      let ns' : Namespace := { ns with state := ns.restoreHook ns.state blob }
      let r := restoreNsList rest mm
      ((nm, ns') :: r.1, r.2)

/-- Resolver loop of the restore phase (app.rs:275-286); stops at the first
missing module blob (`panic!("Migration data not found for module ...")`). -/
def restoreResolvers (rs : List (String × List (String × Namespace)))
    (modules : List (String × ModuleMigration)) :
    List (String × List (String × Namespace)) × Option MigErr :=
  match rs with
  | [] => ([], none)
  | (k, nss) :: rest =>
    match alookup k modules with
    | none => ((k, nss) :: rest, some (MigErr.moduleMissing k))
    | some mm =>
      let r := restoreNsList nss mm
      match r.2 with
      | some e => ((k, r.1) :: rest, some e)
      | none =>
        let r' := restoreResolvers rest modules
        ((k, r.1) :: r'.1, r'.2)

/-- `ApplicationImpl::complete_migration` (app.rs:252-287), with the in-place
mutation order made explicit: hash check first, then the memory grow-and-copy,
then the global-count check, then the globals overwrite, then the
per-resolver/per-namespace blob restore.  The returned `state` is the
application at the point the call finished or panicked. -/
def complete_migration (app : App) (mig : AppMigration) : MigResult :=
  if mig.code_sha256 ≠ app.code_sha256 then
    ⟨app, some MigErr.checksumMismatch⟩
  else
    let app1 : App := { app with memory := restoreMemory app.memory mig.memory }
    if app1.globals.length ≠ mig.globals.length then
      ⟨app1, some MigErr.globalLenMismatch⟩
    else
      let app2 : App := { app1 with globals := mig.globals }
      let r := restoreResolvers app2.resolvers mig.modules
      ⟨{ app2 with resolvers := r.1 }, r.2⟩

/-- Value of Rust's `(x as u32) as i64` on an `i32` argument (zero-extension
through `u32`, app.rs:292 and the analogous casts in invoke1..invoke4). -/
def toU32 (x : Int) : Int := x % 4294967296

/-- Rust's `as i32` truncation of a 64-bit result (the trailing `as _` in
each invoke body): the 32-bit signed value congruent to the input modulo
2^32. -/
def toI32 (x : Int) : Int := (x + 2147483648) % 4294967296 - 2147483648

/-- The runtime's fault-isolating wrapper `rt.protected_call` (external
capability, spec glossary "Protected call"): a trap inside the body surfaces
as the `Except.error` the body already carries, never as a host fault. -/
def protectedCall (body : Unit → Except Unit Int) : Except Unit Int := body ()

/-- `ApplicationImpl::invoke0` (app.rs:290-294). -/
def invoke0 (app : App) (target : Int) : Except Unit Int :=
  protectedCall fun _ => (app.invoke0_fn (toU32 target)).map toI32

/-- `ApplicationImpl::invoke1` (app.rs:296-308). -/
def invoke1 (app : App) (target a1 : Int) : Except Unit Int :=
  protectedCall fun _ => (app.invoke1_fn (toU32 target) (toU32 a1)).map toI32

/-- `ApplicationImpl::invoke2` (app.rs:310-324). -/
def invoke2 (app : App) (target a1 a2 : Int) : Except Unit Int :=
  protectedCall fun _ => (app.invoke2_fn (toU32 target) (toU32 a1) (toU32 a2)).map toI32

/-- `ApplicationImpl::invoke3` (app.rs:326-342). -/
def invoke3 (app : App) (target a1 a2 a3 : Int) : Except Unit Int :=
  protectedCall fun _ =>
    (app.invoke3_fn (toU32 target) (toU32 a1) (toU32 a2) (toU32 a3)).map toI32

/-- `ApplicationImpl::invoke4` (app.rs:344-362). -/
def invoke4 (app : App) (target a1 a2 a3 a4 : Int) : Except Unit Int :=
  protectedCall fun _ =>
    (app.invoke4_fn (toU32 target) (toU32 a1) (toU32 a2) (toU32 a3) (toU32 a4)).map toI32

/-- Exit kind of `Application::initialize` (app.rs:159-177): the module
exports no initializer (early return, app.rs:166), the initializer returned
zero, or it returned nonzero and the function panicked (app.rs:175). -/
inductive InitOutcome where
  | noInitializer
  | ok
  | failed
deriving DecidableEq

/-- Outcome of `Application::initialize` together with the trace of
`currently_inside`: `during` is the counter while control is inside the call
(after `AppInsideHandle::new`, app.rs:52-53), `after` its value once the call
has returned or unwound (the handle's `Drop` decrement, app.rs:62-65, runs on
every exit path). -/
structure InitRun where
  outcome : InitOutcome
  during : Nat
  after : Nat
deriving DecidableEq

/-- `Application::initialize` (app.rs:159-177) as a counter-traced
function. -/
def initializeApp (app : App) (initializer_name : Option String) : InitRun :=
  let inside := app.currently_inside + 1
  match app.initCall (initializer_name.getD "__app_init") with
  | none => ⟨InitOutcome.noInitializer, inside, inside - 1⟩
  | some ret =>
    if ret ≠ 0 then ⟨InitOutcome.failed, inside, inside - 1⟩
    else ⟨InitOutcome.ok, inside, inside - 1⟩

/-- `invoke0` paired with the values of `currently_inside` during and after
the call: the body of invoke0 (app.rs:290-294) performs no `AppInsideHandle`
acquisition, so the counter is untouched throughout. -/
def invoke0Counter (app : App) (target : Int) : Except Unit Int × Nat × Nat :=
  (invoke0 app target, app.currently_inside, app.currently_inside)

/-- A routed endpoint as obtained from the router collaborator
(delegates.rs:82-96): numeric id plus the two flags the pipeline reads. -/
structure Endpoint where
  id : Int
  read_body : Bool
  init_session : Bool
deriving DecidableEq

/-- One inbound transport request as consumed by `fire_handlers`
(delegates.rs:36-56): the display strings plus the body chunk sequence.
`path` is the URI up to the first question mark (the `split("?")` at
delegates.rs:75); the split itself is external string handling no claim
depends on. -/
structure HttpRequest where
  method : String
  uri : String
  remote_addr : String
  path : String
  chunks : List (List Nat)

/-- The per-request slice of `ice_server::Context` that `fire_handlers`
reads: the request-logging flag set by lib.rs:110-116, the maximum request
body size (delegates.rs:131), the optional static directory
(delegates.rs:106), and the router lookup (delegates.rs:77). -/
structure Ctx where
  log_requests : Bool
  max_request_body_size : Nat
  static_dir : Option String
  router : String → Option Endpoint

/-- Observable outcome of the dispatch pipeline: the handoff to the external
handler (`glue::ice_glue_async_endpoint_handler`, delegates.rs:160-163) with
the endpoint id and accumulated body, the oversized-body failure
(`hyper::Error::TooLarge`, delegates.rs:143), or the static-file early return
(delegates.rs:107). -/
inductive PipelineOutcome where
  | handoff (ep_id : Int) (body : List Nat)
  | oversized
  | staticFile (sub_path : String)
deriving DecidableEq

/-- Result of one `fire_handlers` run: the number of request log lines
emitted and the pipeline outcome. -/
structure FireResult where
  logLines : Nat
  outcome : PipelineOutcome
deriving DecidableEq

/-- The body `for_each` loop (delegates.rs:139-151): for each chunk, first
the oversized check against the accumulated buffer, then (only when
`read_body` is set) the append.  Returns the final buffer and whether the
check fired; on firing, the buffer has been cleared (`body.clear()`,
delegates.rs:142) and the loop stops with `Err(hyper::Error::TooLarge)`. -/
def bodyLoop (rb : Bool) (M : Nat) : List (List Nat) → List Nat → List Nat × Bool
  | [], buf => (buf, false)
  | c :: rest, buf =>
    if M < buf.length + c.length then ([], true)
    else bodyLoop rb M rest (if rb then buf ++ c else buf)

/-- The oversized-body trip condition exactly as the claims state it: at some
chunk boundary, the accumulated buffer length plus the next chunk's length
exceeds the configured maximum (the buffer accumulating only under
`read_body`). -/
def trips (rb : Bool) (M : Nat) : List (List Nat) → List Nat → Bool
  | [], _ => false
  | c :: rest, buf =>
    decide (M < buf.length + c.length) || trips rb M rest (if rb then buf ++ c else buf)

/-- Body phase followed by the handoff decision: the handler call happens in
the `.map` continuation of the body future (delegates.rs:151-164), so it runs
exactly when the body loop succeeded. -/
def bodyPhase (rb : Bool) (M : Nat) (chunks : List (List Nat)) (ep_id : Int) : PipelineOutcome :=
  let r := bodyLoop rb M chunks []
  if r.2 then PipelineOutcome.oversized else PipelineOutcome.handoff ep_id r.1

/-- `fire_handlers` (delegates.rs:36-188) restricted to the observables the
claims are about: the request log line printed unconditionally at
delegates.rs:50 before any branch, routing (delegates.rs:82-111) including
the static-file early return, and the body/handoff phases.  Session handling
(delegates.rs:113-129) and response assembly (delegates.rs:165-187) touch no
observable of the claims.  The `logLines` component is 1 because the
`println!` at delegates.rs:50 executes on every call, on every branch. -/
def fire_handlers (ctx : Ctx) (req : HttpRequest) : FireResult :=
  let outcome :=
    match ctx.router req.path with
    | some ep => bodyPhase ep.read_body ctx.max_request_body_size req.chunks ep.id
    | none =>
      if req.path.startsWith "/static/" then
        match ctx.static_dir with
        | some _ => PipelineOutcome.staticFile (req.path.drop 7)
        | none => bodyPhase false ctx.max_request_body_size req.chunks (-1)
      else bodyPhase false ctx.max_request_body_size req.chunks (-1)
  ⟨1, outcome⟩

/-- Whether the external handler was invoked during the run (the
`ice_glue_async_endpoint_handler` call, delegates.rs:160-163). -/
def handlerCalled (r : FireResult) : Bool :=
  match r.outcome with
  | PipelineOutcome.handoff _ _ => true
  | _ => false

/-- `ice_server_disable_request_logging` (lib.rs:110-116): clears the
`log_requests` flag of the server context. -/
def ice_server_disable_request_logging (ctx : Ctx) : Ctx :=
  { ctx with log_requests := false }

/-- Total byte size of a chunked body. -/
def totalLen (chunks : List (List Nat)) : Nat := (chunks.map List.length).sum

/-! ### Migration: memory phase lemmas -/

theorem restoreMemory_self (mem : List Nat) : restoreMemory mem mem = mem := by
  simp [restoreMemory]

theorem restoreMemory_length (mem snap : List Nat) :
    (restoreMemory mem snap).length = max mem.length snap.length := by
  unfold restoreMemory growMemory
  by_cases h : mem.length < snap.length
  · simp [h]
    omega
  · simp [h]
    omega

theorem restoreMemory_take (mem snap : List Nat) :
    (restoreMemory mem snap).take snap.length = snap := by
  unfold restoreMemory
  simp

theorem restoreMemory_drop (mem snap : List Nat) :
    (restoreMemory mem snap).drop snap.length = mem.drop snap.length := by
  unfold restoreMemory growMemory
  by_cases h : mem.length < snap.length
  · simp only [if_pos h, List.drop_left]
    have h1 : (mem ++ List.replicate (snap.length - mem.length) 0).length ≤ snap.length := by
      simp
      omega
    rw [List.drop_eq_nil_of_le h1, List.drop_eq_nil_of_le (le_of_lt h)]
  · simp [h]

theorem complete_migration_memory (app : App) (mig : AppMigration)
    (hh : mig.code_sha256 = app.code_sha256) :
    (complete_migration app mig).state.memory = restoreMemory app.memory mig.memory := by
  unfold complete_migration
  rw [if_neg (by simp [hh])]
  dsimp only
  split <;> rfl

/-! ### Migration: namespace round-trip lemmas -/

theorem restoreNsList_id (nss : List (String × Namespace)) (mm : ModuleMigration)
    (h : ∀ q ∈ nss, ∃ b, alookup q.1 mm.namespaces = some b ∧
      q.2.restoreHook q.2.state b = q.2.state) :
    restoreNsList nss mm = (nss, none) := by
  induction nss with
  | nil => rfl
  | cons p rest ih =>
    obtain ⟨nm, ns⟩ := p
    obtain ⟨b, hb, hr⟩ := h (nm, ns) (List.mem_cons_self _ _)
    have hrest := ih (fun q hq => h q (List.mem_cons_of_mem _ hq))
    have hns : { ns with state := ns.restoreHook ns.state b } = ns := by
      cases ns
      simp_all
    unfold restoreNsList
    dsimp only at hb
    rw [hb]
    simp only [hns, hrest]

theorem restoreResolvers_id (rs : List (String × List (String × Namespace)))
    (modules : List (String × ModuleMigration))
    (h : ∀ p ∈ rs, ∃ mm, alookup p.1 modules = some mm ∧
      restoreNsList p.2 mm = (p.2, none)) :
    restoreResolvers rs modules = (rs, none) := by
  induction rs with
  | nil => rfl
  | cons p rest ih =>
    obtain ⟨k, nss⟩ := p
    obtain ⟨mm, hmm, hns⟩ := h (k, nss) (List.mem_cons_self _ _)
    have hrest := ih (fun q hq => h q (List.mem_cons_of_mem _ hq))
    unfold restoreResolvers
    dsimp only at hmm hns
    rw [hmm]
    simp only [hns, hrest]

theorem captureNamespaces_lookup (nss : List (String × Namespace)) :
    ∀ bs, captureNamespaces nss = some bs → (nss.map Prod.fst).Nodup →
    ∀ q ∈ nss, ∃ b, alookup q.1 bs = some b ∧ q.2.captureHook q.2.state = some b := by
  induction nss with
  | nil =>
    intro bs _ _ q hq
    cases hq
  | cons p rest ih =>
    intro bs hc hnd q hq
    obtain ⟨nm, ns⟩ := p
    unfold captureNamespaces at hc
    cases hcap : ns.captureHook ns.state with
    | none => rw [hcap] at hc; cases hc
    | some b =>
      rw [hcap] at hc
      cases hcr : captureNamespaces rest with
      | none => rw [hcr] at hc; cases hc
      | some bs' =>
        rw [hcr] at hc
        injection hc with hbs
        subst hbs
        simp only [List.map_cons, List.nodup_cons] at hnd
        rcases List.mem_cons.mp hq with heq | hmem
        · subst heq
          exact ⟨b, by simp [alookup], hcap⟩
        · obtain ⟨b', hb', hcap'⟩ := ih bs' hcr hnd.2 q hmem
          refine ⟨b', ?_, hcap'⟩
          have hne : q.1 ≠ nm := by
            intro hcontra
            exact hnd.1 (hcontra ▸ List.mem_map_of_mem Prod.fst hmem)
          simp [alookup, hne, hb']

theorem captureResolvers_lookup (rs : List (String × List (String × Namespace))) :
    ∀ ms, captureResolvers rs = some ms → (rs.map Prod.fst).Nodup →
    ∀ p ∈ rs, ∃ bs, alookup p.1 ms = some (ModuleMigration.mk bs) ∧
      captureNamespaces p.2 = some bs := by
  induction rs with
  | nil =>
    intro ms _ _ p hp
    cases hp
  | cons q rest ih =>
    intro ms hc hnd p hp
    obtain ⟨k, nss⟩ := q
    unfold captureResolvers at hc
    cases hcap : captureNamespaces nss with
    | none => rw [hcap] at hc; cases hc
    | some bs =>
      rw [hcap] at hc
      cases hcr : captureResolvers rest with
      | none => rw [hcr] at hc; cases hc
      | some ms' =>
        rw [hcr] at hc
        injection hc with hms
        subst hms
        simp only [List.map_cons, List.nodup_cons] at hnd
        rcases List.mem_cons.mp hp with heq | hmem
        · subst heq
          exact ⟨bs, by simp [alookup], hcap⟩
        · obtain ⟨bs', hb', hcap'⟩ := ih ms' hcr hnd.2 p hmem
          refine ⟨bs', ?_, hcap'⟩
          have hne : p.1 ≠ k := by
            intro hcontra
            exact hnd.1 (hcontra ▸ List.mem_map_of_mem Prod.fst hmem)
          simp [alookup, hne, hb']

/-! ### Concrete instances used by witnesses -/

/-- A concrete registry with one application named `app` at id 0, declaring
the single capability `net`. -/
def defaultContainer : Container := ⟨[("app", 0)], ⟨[⟨["net"]⟩]⟩⟩

/-- A concrete application with two memory bytes, one global, and no
resolvers. -/
def defaultApp : App where
  name := "app"
  code_sha256 := [1, 2]
  memory := [0, 0]
  globals := [5]
  currently_inside := 0
  resolvers := []
  invoke0_fn := fun _ => Except.ok 0
  invoke1_fn := fun _ _ => Except.ok 0
  invoke2_fn := fun _ _ _ => Except.ok 0
  invoke3_fn := fun _ _ _ _ => Except.ok 0
  invoke4_fn := fun _ _ _ _ _ => Except.ok 0
  initCall := fun _ => none
  container := defaultContainer

/-- A namespace whose migration blob is its state verbatim. -/
def idNamespace : Namespace := ⟨[4, 2], fun s => some s, fun _ b => b⟩

def c3app : App := { defaultApp with resolvers := [("ice", [("timer", idNamespace)])] }

def c3mig : AppMigration := ⟨[1, 2], [0, 0], [5], [("ice", ⟨[("timer", [4, 2])]⟩)]⟩

/-! ### C3: capture/restore round trip -/

/-- C3: for every Application, calling start_migration and then immediately
complete_migration with the resulting snapshot on the same unmodified
Application succeeds (no panic) and leaves the linear memory bytes, global
values, and per-namespace state identical to their values at capture time.
The Nodup hypotheses record that the source's resolver and namespace maps
are BTreeMaps (unique keys); the hook hypothesis is the spec-modelled
round-trip contract of the namespace migration hooks, whose code is outside
src/. -/
theorem c3_capture_restore_roundtrip (app : App) (mig : AppMigration)
    (hcap : start_migration app = some mig)
    (hkeys : (app.resolvers.map Prod.fst).Nodup)
    (hnames : ∀ p ∈ app.resolvers, (p.2.map Prod.fst).Nodup)
    (hhook : ∀ p ∈ app.resolvers, ∀ q ∈ p.2, ∀ b,
      q.2.captureHook q.2.state = some b → q.2.restoreHook q.2.state b = q.2.state) :
    complete_migration app mig = ⟨app, none⟩ := by
  unfold start_migration at hcap
  cases hcr : captureResolvers app.resolvers with
  | none => rw [hcr] at hcap; cases hcap
  | some ms =>
    rw [hcr] at hcap
    injection hcap with h
    subst h
    have hrr : restoreResolvers app.resolvers ms = (app.resolvers, none) := by
      apply restoreResolvers_id
      intro p hp
      obtain ⟨bs, hms, hcn⟩ := captureResolvers_lookup app.resolvers ms hcr hkeys p hp
      refine ⟨⟨bs⟩, hms, ?_⟩
      apply restoreNsList_id
      intro q hq
      obtain ⟨b, hbs, hch⟩ := captureNamespaces_lookup p.2 bs hcn (hnames p hp) q hq
      exact ⟨b, hbs, hhook p hp q hq b hch⟩
    unfold complete_migration
    rw [if_neg (by simp)]
    dsimp only
    rw [if_neg (by simp), restoreMemory_self, hrr]

/-- Witness for C3: a concrete capture/restore cycle on `c3app`. -/
theorem c3_witness :
    start_migration c3app = some c3mig
    ∧ (c3app.resolvers.map Prod.fst).Nodup
    ∧ complete_migration c3app c3mig = ⟨c3app, none⟩ := by
  refine ⟨by decide, by decide, ?_⟩
  apply c3_capture_restore_roundtrip c3app c3mig (by decide) (by decide)
  · intro p hp
    simp only [c3app] at hp
    rw [List.mem_singleton] at hp
    subst hp
    decide
  · intro p hp q hq b hb
    simp only [c3app] at hp
    rw [List.mem_singleton] at hp
    subst hp
    simp only at hq
    rw [List.mem_singleton] at hq
    subst hq
    simp only [idNamespace] at hb ⊢
    exact (Option.some.inj hb).symm

/-! ### C4: hash mismatch rejects without mutation -/

/-- C4: for every Application and every snapshot whose recorded code_sha256
differs from the Application's current code_sha256, complete_migration fails
immediately with the checksum panic and the Application state is exactly the
prior state (no memory, global, or namespace mutation). -/
theorem c4_hash_mismatch_rejects_without_mutation (app : App) (mig : AppMigration)
    (h : mig.code_sha256 ≠ app.code_sha256) :
    complete_migration app mig = ⟨app, some MigErr.checksumMismatch⟩ := by
  unfold complete_migration
  rw [if_pos h]

def c4mig : AppMigration := ⟨[9, 9], [1], [], []⟩

/-- Witness for C4 at a concrete mismatching snapshot. -/
theorem c4_witness :
    c4mig.code_sha256 ≠ defaultApp.code_sha256
    ∧ complete_migration defaultApp c4mig = ⟨defaultApp, some MigErr.checksumMismatch⟩ :=
  ⟨by decide, c4_hash_mismatch_rejects_without_mutation defaultApp c4mig (by decide)⟩

/-! ### C5: memory never shrinks, low region copied, excess untouched -/

/-- C5: during complete_migration (past the hash check), sandbox memory never
shrinks: the resulting memory length is the maximum of the old length and the
snapshot length (growth by exactly the difference when the snapshot is
larger), the snapshot bytes occupy the low region `[0, snapshot length)`, and
every current byte at or beyond the snapshot length is unchanged. -/
theorem c5_memory_grow_only (app : App) (mig : AppMigration)
    (hh : mig.code_sha256 = app.code_sha256) :
    app.memory.length ≤ (complete_migration app mig).state.memory.length
    ∧ (complete_migration app mig).state.memory.length
        = max app.memory.length mig.memory.length
    ∧ (complete_migration app mig).state.memory.take mig.memory.length = mig.memory
    ∧ (complete_migration app mig).state.memory.drop mig.memory.length
        = app.memory.drop mig.memory.length := by
  rw [complete_migration_memory app mig hh]
  refine ⟨?_, restoreMemory_length _ _, restoreMemory_take _ _, restoreMemory_drop _ _⟩
  rw [restoreMemory_length]
  exact le_max_left _ _

def c5mig : AppMigration := ⟨[1, 2], [9, 9, 9], [5], []⟩

/-- Witness for C5 with a snapshot one byte larger than current memory. -/
theorem c5_witness :
    c5mig.code_sha256 = defaultApp.code_sha256
    ∧ defaultApp.memory.length ≤ (complete_migration defaultApp c5mig).state.memory.length
    ∧ (complete_migration defaultApp c5mig).state.memory.take c5mig.memory.length = c5mig.memory
    ∧ (complete_migration defaultApp c5mig).state.memory.drop c5mig.memory.length
        = defaultApp.memory.drop c5mig.memory.length := by
  have h := c5_memory_grow_only defaultApp c5mig (by decide)
  exact ⟨by decide, h.1, h.2.2.1, h.2.2.2⟩

/-! ### C1: failed restore is not atomic -/

def c1mig : AppMigration := ⟨[1, 2], [7, 7, 7], [], []⟩

/-- C1 counterexample: a restore that fails its global-count check after the
memory grow-and-copy has already happened.  The claim says a failed restore
leaves memory, globals, and namespace state exactly as before; here the call
fails (`globalLenMismatch`) yet the Application's memory has been overwritten
with the snapshot's bytes. -/
theorem c1_counterexample :
    (complete_migration defaultApp c1mig).err = some MigErr.globalLenMismatch
    ∧ (complete_migration defaultApp c1mig).state.memory ≠ defaultApp.memory := by
  decide

/-- C1 (amended): only the code-hash check fails without mutation; if the
hash matches and the global-count check fails, complete_migration fails with
the memory already overwritten by the grow-and-copy phase, while globals and
namespace state are still the prior ones — a failed restore can mix old and
new data. -/
theorem c1_global_count_failure_keeps_overwritten_memory (app : App) (mig : AppMigration)
    (hh : mig.code_sha256 = app.code_sha256)
    (hg : app.globals.length ≠ mig.globals.length) :
    complete_migration app mig =
      ⟨{ app with memory := restoreMemory app.memory mig.memory },
        some MigErr.globalLenMismatch⟩ := by
  unfold complete_migration
  rw [if_neg (by simp [hh])]
  dsimp only
  rw [if_pos hg]

/-- Witness for the amended C1 at the counterexample input. -/
theorem c1_witness :
    c1mig.code_sha256 = defaultApp.code_sha256
    ∧ defaultApp.globals.length ≠ c1mig.globals.length
    ∧ complete_migration defaultApp c1mig =
        ⟨{ defaultApp with memory := restoreMemory defaultApp.memory c1mig.memory },
          some MigErr.globalLenMismatch⟩ :=
  ⟨by decide, by decide,
    c1_global_count_failure_keeps_overwritten_memory defaultApp c1mig (by decide) (by decide)⟩

/-! ### C6: invocation surface -/

/-- C6: each of invoke0..invoke4 performs the protected call of the
corresponding fixed 64-bit entry point on its zero-extended 32-bit arguments
and returns the entry point's 64-bit result truncated to a 32-bit signed
integer (a trap stays a failure of that call).  The last three conjuncts pin
the conversions down: `toU32` is the unique value in `[0, 2^32)` congruent to
the argument modulo 2^32, and `toI32 r` is the unique value in
`[-2^31, 2^31)` congruent to `r` modulo 2^32, i.e. genuine 32-bit signed
truncation. -/
theorem c6_invoke_surface (app : App) (t a b c d : Int) :
    invoke0 app t = (app.invoke0_fn (toU32 t)).map toI32
    ∧ invoke1 app t a = (app.invoke1_fn (toU32 t) (toU32 a)).map toI32
    ∧ invoke2 app t a b = (app.invoke2_fn (toU32 t) (toU32 a) (toU32 b)).map toI32
    ∧ invoke3 app t a b c
        = (app.invoke3_fn (toU32 t) (toU32 a) (toU32 b) (toU32 c)).map toI32
    ∧ invoke4 app t a b c d
        = (app.invoke4_fn (toU32 t) (toU32 a) (toU32 b) (toU32 c) (toU32 d)).map toI32
    ∧ (∀ x : Int, 0 ≤ toU32 x ∧ toU32 x < 4294967296
        ∧ toU32 x % 4294967296 = x % 4294967296)
    ∧ (∀ r : Int, -2147483648 ≤ toI32 r ∧ toI32 r < 2147483648
        ∧ toI32 r % 4294967296 = r % 4294967296)
    ∧ (∀ r s : Int, s % 4294967296 = r % 4294967296 →
        -2147483648 ≤ s → s < 2147483648 → s = toI32 r) := by
  refine ⟨rfl, rfl, rfl, rfl, rfl, fun x => ⟨?_, ?_, ?_⟩, fun r => ⟨?_, ?_, ?_⟩,
    fun r s h1 h2 h3 => ?_⟩ <;>
    simp only [toU32, toI32] <;> omega

/-! ### C7: request logging is unconditional -/

/-- C7 (code bug): even after `ice_server_disable_request_logging` has
cleared the `log_requests` flag, every `fire_handlers` run still emits
exactly one request log line — the `println!` at delegates.rs:50 never
consults the flag, contradicting the claim that a disabled flag suppresses
the log line. -/
theorem c7_logging_flag_ignored (ctx : Ctx) (req : HttpRequest) :
    (ice_server_disable_request_logging ctx).log_requests = false
    ∧ (fire_handlers (ice_server_disable_request_logging ctx) req).logLines = 1
    ∧ (fire_handlers ctx req).logLines = 1 :=
  ⟨rfl, rfl, rfl⟩

/-! ### C8: reentrancy counter -/

/-- C8 counterexample: an entry into the sandboxed code through the public
invocation surface (`invoke0`) with prior counter value 0 runs with
`currently_inside` still 0 — the invoke bodies (app.rs:289-362) never
acquire an `AppInsideHandle`, so the counter is not incremented on entry. -/
theorem c8_counterexample :
    defaultApp.currently_inside = 0
    ∧ (invoke0Counter defaultApp 3).2.1 = 0
    ∧ (invoke0Counter defaultApp 3).2.1 ≠ defaultApp.currently_inside + 1 := by
  decide

/-- C8 (amended): the scoped counter discipline holds for
`Application::initialize` — `currently_inside` is incremented on entry and
decremented on every exit path (missing initializer, success, initializer
failure), always returning to its prior value — while the invoke0..invoke4
entry points leave the counter untouched during and after the call. -/
theorem c8_counter_scoped_in_initialization (app : App) (nm : Option String) (t : Int) :
    (initializeApp app nm).during = app.currently_inside + 1
    ∧ (initializeApp app nm).after = app.currently_inside
    ∧ (invoke0Counter app t).2.1 = app.currently_inside
    ∧ (invoke0Counter app t).2.2 = app.currently_inside := by
  refine ⟨?_, ?_, rfl, rfl⟩ <;>
  · unfold initializeApp
    cases h : app.initCall (nm.getD "__app_init") with
    | none => simp
    | some ret =>
      by_cases hr : ret ≠ 0 <;> simp [hr]

/-! ### C9: permission check -/

/-- C9 counterexample: an Application whose name is absent from the current
configuration snapshot.  `check_permission` hits the `.unwrap()` at
app.rs:206 and panics (modelled as `none`) instead of returning a binary
authorized/unauthorized result, so the claim's "never throws or panics" part
fails. -/
def c9app : App := { defaultApp with name := "ghost" }

theorem c9_counterexample : check_permission c9app "net" = none := by
  rfl

/-- C9 (amended): whenever the Application's name resolves to an id in the
shared configuration snapshot and that id indexes a configuration entry,
check_permission returns the binary authorized/unauthorized result of the
declared-permission-set membership test and does not panic; the panic paths
are reachable exactly when that registration invariant fails. -/
theorem c9_permission_check_binary (app : App) (perm : String) (i : Nat) (meta : AppMeta)
    (hid : app.container.lookup_app_id_by_name app.name = some i)
    (hmeta : app.container.config_state.applications[i]? = some meta) :
    check_permission app perm
      = some (if perm ∈ meta.permissions then Except.ok () else Except.error ()) := by
  unfold check_permission
  rw [hid]
  dsimp only
  rw [hmeta]
  dsimp only
  by_cases hp : perm ∈ meta.permissions <;> simp [hp]

/-- Witness for the amended C9: `defaultApp` is registered at id 0 with
permission set containing `net` but not `fs`. -/
theorem c9_witness :
    defaultApp.container.lookup_app_id_by_name defaultApp.name = some 0
    ∧ defaultApp.container.config_state.applications[0]? = some ⟨["net"]⟩
    ∧ check_permission defaultApp "net" = some (Except.ok ())
    ∧ check_permission defaultApp "fs" = some (Except.error ()) := by
  refine ⟨by decide, by decide, ?_, ?_⟩
  · have h := c9_permission_check_binary defaultApp "net" 0 ⟨["net"]⟩ (by decide) (by decide)
    simpa using h
  · have h := c9_permission_check_binary defaultApp "fs" 0 ⟨["net"]⟩ (by decide) (by decide)
    simpa using h

/-! ### Body phase lemmas -/

theorem totalLen_cons (c : List Nat) (rest : List (List Nat)) :
    totalLen (c :: rest) = c.length + totalLen rest := by
  simp [totalLen]

theorem bodyLoop_of_trips_false (rb : Bool) (M : Nat) :
    ∀ (chunks : List (List Nat)) (buf : List Nat), trips rb M chunks buf = false →
    bodyLoop rb M chunks buf = ((if rb then buf ++ chunks.join else buf), false) := by
  intro chunks
  induction chunks with
  | nil =>
    intro buf _
    cases rb <;> simp [bodyLoop]
  | cons c rest ih =>
    intro buf h
    simp only [trips, Bool.or_eq_false_iff, decide_eq_false_iff_not] at h
    obtain ⟨h1, h2⟩ := h
    unfold bodyLoop
    rw [if_neg h1, ih _ h2]
    cases rb <;> simp

theorem bodyLoop_of_trips_true (rb : Bool) (M : Nat) :
    ∀ (chunks : List (List Nat)) (buf : List Nat), trips rb M chunks buf = true →
    bodyLoop rb M chunks buf = ([], true) := by
  intro chunks
  induction chunks with
  | nil =>
    intro buf h
    simp [trips] at h
  | cons c rest ih =>
    intro buf h
    by_cases hM : M < buf.length + c.length
    · unfold bodyLoop
      rw [if_pos hM]
    · simp only [trips, Bool.or_eq_true, decide_eq_true_eq] at h
      rcases h with h | h
      · exact absurd h hM
      · unfold bodyLoop
        rw [if_neg hM]
        exact ih _ h

theorem trips_false_of_total_le (rb : Bool) (M : Nat) :
    ∀ (chunks : List (List Nat)) (buf : List Nat),
    buf.length + totalLen chunks ≤ M → trips rb M chunks buf = false := by
  intro chunks
  induction chunks with
  | nil =>
    intro buf _
    rfl
  | cons c rest ih =>
    intro buf h
    rw [totalLen_cons] at h
    simp only [trips, Bool.or_eq_false_iff, decide_eq_false_iff_not]
    constructor
    · omega
    · apply ih
      cases rb <;> simp <;> omega

theorem bodyLoop_nobody (M : Nat) :
    ∀ (chunks : List (List Nat)) (buf : List Nat),
    (∀ c ∈ chunks, buf.length + c.length ≤ M) →
    bodyLoop false M chunks buf = (buf, false) := by
  intro chunks
  induction chunks with
  | nil =>
    intro buf _
    rfl
  | cons c rest ih =>
    intro buf h
    have h1 := h c (List.mem_cons_self _ _)
    unfold bodyLoop
    rw [if_neg (by omega)]
    simpa using ih buf (fun x hx => h x (List.mem_cons_of_mem _ hx))

theorem bodyLoop_oversized_chunk (M : Nat) :
    ∀ (chunks : List (List Nat)) (buf : List Nat),
    (∃ c ∈ chunks, M < buf.length + c.length) →
    bodyLoop false M chunks buf = ([], true) := by
  intro chunks
  induction chunks with
  | nil =>
    intro buf h
    simp at h
  | cons c rest ih =>
    intro buf h
    by_cases hM : M < buf.length + c.length
    · unfold bodyLoop
      rw [if_pos hM]
    · obtain ⟨x, hx, hlen⟩ := h
      rcases List.mem_cons.mp hx with rfl | hx'
      · exact absurd hlen hM
      · unfold bodyLoop
        rw [if_neg hM]
        simpa using ih buf ⟨x, hx', hlen⟩

theorem fire_handlers_routed (ctx : Ctx) (req : HttpRequest) (ep : Endpoint)
    (hr : ctx.router req.path = some ep) :
    fire_handlers ctx req
      = ⟨1, bodyPhase ep.read_body ctx.max_request_body_size req.chunks ep.id⟩ := by
  unfold fire_handlers
  rw [hr]

/-! ### C2: the body size gate -/

/-- C2: for every routed request, if the cumulative body size stays at most
the configured maximum the pipeline proceeds to the handler handoff (with the
accumulated body when `read_body` is set, the empty body otherwise); and if
at some chunk boundary the accumulated buffer length plus the next chunk's
length exceeds the maximum, the buffer is cleared and the pipeline fails with
the oversized-body error before any handler call occurs. -/
theorem c2_body_size_gate (ctx : Ctx) (req : HttpRequest) (ep : Endpoint)
    (hr : ctx.router req.path = some ep) :
    (totalLen req.chunks ≤ ctx.max_request_body_size →
      (fire_handlers ctx req).outcome
        = PipelineOutcome.handoff ep.id (if ep.read_body then req.chunks.join else [])
      ∧ handlerCalled (fire_handlers ctx req) = true)
    ∧ (trips ep.read_body ctx.max_request_body_size req.chunks [] = true →
      (fire_handlers ctx req).outcome = PipelineOutcome.oversized
      ∧ handlerCalled (fire_handlers ctx req) = false) := by
  rw [fire_handlers_routed ctx req ep hr]
  constructor
  · intro hle
    have ht : trips ep.read_body ctx.max_request_body_size req.chunks [] = false :=
      trips_false_of_total_le _ _ _ _ (by simpa using hle)
    have hb := bodyLoop_of_trips_false _ _ _ _ ht
    unfold bodyPhase
    rw [hb]
    cases hrb : ep.read_body <;> simp [handlerCalled]
  · intro htr
    have hb := bodyLoop_of_trips_true _ _ _ _ htr
    unfold bodyPhase
    rw [hb]
    simp [handlerCalled]

def c2ep : Endpoint := ⟨7, true, false⟩

def c2ctx : Ctx := ⟨true, 10, none, fun p => if p = "/x" then some c2ep else none⟩

def c2req : HttpRequest := ⟨"GET", "/x", "127.0.0.1:4000", "/x", [[1, 2], [3]]⟩

/-- Witness for C2: a two-chunk body of total size 3 under maximum 10 reaches
the handoff with the accumulated body. -/
theorem c2_witness :
    c2ctx.router c2req.path = some c2ep
    ∧ totalLen c2req.chunks ≤ c2ctx.max_request_body_size
    ∧ (fire_handlers c2ctx c2req).outcome = PipelineOutcome.handoff 7 [1, 2, 3] := by
  refine ⟨by decide, by decide, ?_⟩
  have h := (c2_body_size_gate c2ctx c2req c2ep (by decide)).1 (by decide)
  simpa [c2ep, c2req] using h.1

/-! ### C10: read_body = false drains chunks but still checks each one -/

/-- C10: when the endpoint's read_body flag is false, chunks are drained
without accumulating, and each chunk is checked against an empty buffer: the
request is aborted only if some single chunk by itself exceeds the maximum,
while a multi-chunk body whose total exceeds the maximum is fully drained and
dispatch proceeds to handoff with an empty body. -/
theorem c10_drained_body_checked_per_chunk (ctx : Ctx) (req : HttpRequest) (ep : Endpoint)
    (hr : ctx.router req.path = some ep) (hrb : ep.read_body = false) :
    ((∀ c ∈ req.chunks, c.length ≤ ctx.max_request_body_size) →
      (fire_handlers ctx req).outcome = PipelineOutcome.handoff ep.id []
      ∧ handlerCalled (fire_handlers ctx req) = true)
    ∧ ((∃ c ∈ req.chunks, ctx.max_request_body_size < c.length) →
      (fire_handlers ctx req).outcome = PipelineOutcome.oversized
      ∧ handlerCalled (fire_handlers ctx req) = false) := by
  rw [fire_handlers_routed ctx req ep hr, hrb]
  constructor
  · intro hc
    have hb := bodyLoop_nobody ctx.max_request_body_size req.chunks []
      (fun c h => by simpa using hc c h)
    unfold bodyPhase
    rw [hb]
    simp [handlerCalled]
  · intro h
    obtain ⟨c, hc, hlen⟩ := h
    have hb := bodyLoop_oversized_chunk ctx.max_request_body_size req.chunks []
      ⟨c, hc, by simpa using hlen⟩
    unfold bodyPhase
    rw [hb]
    simp [handlerCalled]

def c10ep : Endpoint := ⟨9, false, false⟩

def c10ctx : Ctx := ⟨true, 4, none, fun p => if p = "/y" then some c10ep else none⟩

def c10req : HttpRequest := ⟨"POST", "/y", "10.0.0.1:999", "/y", [[1, 2, 3], [4, 5, 6]]⟩

/-- Witness for C10: a two-chunk body of total size 6 under maximum 4, each
chunk of size 3, is fully drained and reaches the handoff with an empty
body. -/
theorem c10_witness :
    c10ctx.router c10req.path = some c10ep
    ∧ c10ep.read_body = false
    ∧ c10ctx.max_request_body_size < totalLen c10req.chunks
    ∧ (∀ c ∈ c10req.chunks, c.length ≤ c10ctx.max_request_body_size)
    ∧ (fire_handlers c10ctx c10req).outcome = PipelineOutcome.handoff 9 [] := by
  refine ⟨by decide, by decide, by decide, by decide, ?_⟩
  have h := (c10_drained_body_checked_per_chunk c10ctx c10req c10ep
    (by decide) (by decide)).1 (by decide)
  simpa [c10ep] using h.1
